import Mathlib

/-!
Shallow embedding of the cassowary CHIP-8 virtual machine core
(`src/memory.rs`, `src/display.rs`, `src/instructions.rs`, `src/cpu.rs`)
and verification of the specification's claims about it.

Machine integers are modelled as `Nat` with explicit wraparound (`% 256`
for `u8`); `usize` arithmetic with `checked_add` is modelled against
`2 ^ 64`.  Fallible Rust functions returning `Result` are modelled with
the three-valued `RResult`: `ok` and `error` mirror `Ok`/`Err`, and
`panicked` marks a Rust runtime panic (an out-of-bounds array index),
which is not a `Result` value and aborts the program.
-/

namespace Chip8

/-- Outcome of a fallible Rust function: `Ok`, `Err`, or a runtime panic
(out-of-bounds slice index). -/
inductive RResult (ε : Type) (α : Type) where
  | ok (a : α)
  | error (e : ε)
  | panicked
deriving DecidableEq

/-- True iff the outcome is `Ok`. -/
def RResult.isOk {ε α : Type} : RResult ε α → Bool
  | .ok _ => true
  | _ => false

/-- True iff the outcome is a runtime panic. -/
def RResult.isPanicked {ε α : Type} : RResult ε α → Bool
  | .panicked => true
  | _ => false

/-- `MemoryError` from `src/memory.rs`. -/
inductive MemoryError where
  | outOfBounds
deriving DecidableEq

/-- `CpuError` from `src/cpu.rs` (the `Halt` sentinel included). -/
inductive CpuError where
  | stackOverflow
  | stackUnderflow
  | memoryAddressOverflow
  | illegalInstruction (opcode : Nat)
  | memoryError (e : MemoryError)
  | halt
deriving DecidableEq

/-- Pointwise update of a function modelling a Rust array write. -/
def updFn (f : Nat → Nat) (i v : Nat) : Nat → Nat :=
  fun j => if j = i then v else f j

/-- Capacity of the `Memory` byte array (`[u8; 4096]`). -/
def memLen : Nat := 4096

/-- `Memory` from `src/memory.rs`: a 4096-byte array, modelled as its
contents function (only indices `< memLen` are meaningful). -/
structure Memory where
  bytes : Nat → Nat

/-- `Memory::new`: zero-initialized memory. -/
def Memory.new : Memory := ⟨fun _ => 0⟩

/-- `Memory::load_byte`: bounds-checked byte read. -/
def Memory.load_byte (m : Memory) (addr : Nat) : RResult MemoryError Nat :=
  if addr ≥ memLen then .error .outOfBounds
  else .ok (m.bytes addr)

/-- `Memory::store_byte`: bounds-checked byte write. -/
def Memory.store_byte (m : Memory) (addr value : Nat) : RResult MemoryError Memory :=
  if addr ≥ memLen then .error .outOfBounds
  else .ok ⟨updFn m.bytes addr value⟩

/-- `Memory::load_u16`: the source checks only `addr >= self.0.len()`,
then indexes `self.0[addr]` (in bounds) and `self.0[addr + 1]` — the
latter index panics when `addr + 1` reaches the array length. -/
def Memory.load_u16 (m : Memory) (addr : Nat) : RResult MemoryError Nat :=
  if addr ≥ memLen then .error .outOfBounds
  else if addr + 1 < memLen then .ok ((m.bytes addr) <<< 8 ||| m.bytes (addr + 1))
  else .panicked

/-- `WIDTH` from `src/display.rs`. -/
def dispWidth : Nat := 64

/-- `HEIGHT` from `src/display.rs`. -/
def dispHeight : Nat := 32

/-- `Display` from `src/display.rs`: a `HEIGHT × WIDTH` grid of `u8`
pixel values, modelled as its contents function (row, column). -/
structure Display where
  grid : Nat → Nat → Nat

/-- `Display::new`: all pixels zero. -/
def Display.new : Display := ⟨fun _ _ => 0⟩

/-- Write one pixel of the grid (`self.0[row][col] = pixel`). -/
def Display.setPixel (d : Display) (row col pixel : Nat) : Display :=
  ⟨fun r c => if r = row ∧ c = col then pixel else d.grid r c⟩

/-- `u8::reverse_bits`: bit `i` of the result is bit `7 - i` of the input. -/
def reverseBits8 (b : Nat) : Nat :=
  ((b >>> 0) &&& 1) <<< 7 |||
  ((b >>> 1) &&& 1) <<< 6 |||
  ((b >>> 2) &&& 1) <<< 5 |||
  ((b >>> 3) &&& 1) <<< 4 |||
  ((b >>> 4) &&& 1) <<< 3 |||
  ((b >>> 5) &&& 1) <<< 2 |||
  ((b >>> 6) &&& 1) <<< 1 |||
  ((b >>> 7) &&& 1) <<< 0

/-- Inner loop of `Display::draw` over the 8 sprite columns (`ci` in
`0..8`): the pixel value `(sprite_line >> ci) & 0x01` is *assigned* to
the grid cell, and the `changed` flag latches `old XOR new`.  The first
argument of the recursion is the remaining iteration count. -/
def Display.drawCols (x line row : Nat) : Nat → Nat → Display × Bool → Display × Bool
  | 0, _, st => st
  | n + 1, ci, (d, changed) =>
    let col := (x + ci) % dispWidth
    let pixel := (line >>> ci) &&& 0x01
    let old := d.grid row col == 1
    let d1 := d.setPixel row col pixel
    let changed1 := if changed then changed else xor old (pixel == 1)
    Display.drawCols x line row n (ci + 1) (d1, changed1)

/-- Outer loop of `Display::draw` over the sprite rows: for `ri`
enumerating `start..start + height`, load the sprite byte at
`start + ri` (propagating a memory error), bit-reverse it, and run the
column loop at row `(y + ri) % HEIGHT`. -/
def Display.drawRows (mem : Memory) (x y start : Nat) :
    Nat → Nat → Display × Bool → RResult MemoryError (Display × Bool)
  | 0, _, st => .ok st
  | n + 1, ri, st =>
    match mem.load_byte (start + ri) with
    | .error e => .error e
    | .panicked => .panicked
    | .ok b =>
      let sprite_line := reverseBits8 b
      let row := (y + ri) % dispHeight
      Display.drawRows mem x y start n (ri + 1) (Display.drawCols x sprite_line row 8 0 st)

/-- `Display::draw`: wraps the coordinates modulo the grid size and runs
the row loop with the `changed` flag starting at `false`. -/
def Display.draw (d : Display) (x y height start : Nat) (mem : Memory) :
    RResult MemoryError (Display × Bool) :=
  Display.drawRows mem (x % dispWidth) (y % dispHeight) start height 0 (d, false)

/-- `Instruction` from `src/instructions.rs`: the decoded, tagged
representation of a 16-bit opcode.  `RegId` and `MemAddr` (both `usize`)
are modelled as `Nat`.  The source binds the sub-fields `op_cls`, `x`,
`y`, `op` to locals before matching; those locals are inlined here. -/
inductive Instruction where
  | AssignXImm (x : Nat) (imm : Nat)
  | AddXImm (x : Nat) (imm : Nat)
  | AssignXY (x y : Nat)
  | OrXY (x y : Nat)
  | AndXY (x y : Nat)
  | XorXY (x y : Nat)
  | AddXY (x y : Nat)
  | SubXY (x y : Nat)
  | Shr1X (x : Nat)
  | SubYX (x y : Nat)
  | Shl1X (x : Nat)
  | DispClear
  | DispDraw (x y : Nat) (imm : Nat)
  | SkipIfEqX (x : Nat) (imm : Nat)
  | SkipIfNeX (x : Nat) (imm : Nat)
  | SkipIfEqXY (x y : Nat)
  | SkipIfNeXY (x y : Nat)
  | Jump (addr : Nat)
  | JumpV0 (addr : Nat)
  | Call (addr : Nat)
  | Ret
  | NoOp (opcode : Nat)
  | SkipIfKeyEqX (x : Nat)
  | SkipIfKeyNeX (x : Nat)
  | GetDelayX (x : Nat)
  | AwaitKeyX (x : Nat)
  | SetDelayX (x : Nat)
  | SetSoundX (x : Nat)
  | SetI (addr : Nat)
  | AddIX (x : Nat)
  | SpriteAddrIX (x : Nat)
  | DumpBcdIX (x : Nat)
  | RegDumpIX (x : Nat)
  | RegLoadIX (x : Nat)
  | RandX (x : Nat) (imm : Nat)
  | Halt
  | Unsupported (opcode : Nat)
deriving DecidableEq

/-- `Instruction::decode` from `src/instructions.rs`: inspects the top
nibble as the opcode class, then sub-fields; the Rust integer `match`
arms become an `if` chain over the same discriminants. -/
def Instruction.decode (opcode : Nat) : Instruction :=
  if (opcode &&& 0xF000) >>> 12 = 0x0 then
    if opcode = 0x0000 then .Halt
    else if opcode = 0x00E0 then .DispClear
    else if opcode = 0x00EE then .Ret
    else .NoOp opcode
  else if (opcode &&& 0xF000) >>> 12 = 0x1 then .Jump (opcode &&& 0x0FFF)
  else if (opcode &&& 0xF000) >>> 12 = 0x2 then .Call (opcode &&& 0x0FFF)
  else if (opcode &&& 0xF000) >>> 12 = 0x3 then
    .SkipIfEqX ((opcode &&& 0x0F00) >>> 8) (opcode &&& 0x00FF)
  else if (opcode &&& 0xF000) >>> 12 = 0x4 then
    .SkipIfNeX ((opcode &&& 0x0F00) >>> 8) (opcode &&& 0x00FF)
  else if (opcode &&& 0xF000) >>> 12 = 0x5 then
    if opcode &&& 0x000F = 0 then
      .SkipIfEqXY ((opcode &&& 0x0F00) >>> 8) ((opcode &&& 0x00F0) >>> 4)
    else .Unsupported opcode
  else if (opcode &&& 0xF000) >>> 12 = 0x6 then
    .AssignXImm ((opcode &&& 0x0F00) >>> 8) (opcode &&& 0x00FF)
  else if (opcode &&& 0xF000) >>> 12 = 0x7 then
    .AddXImm ((opcode &&& 0x0F00) >>> 8) (opcode &&& 0x00FF)
  else if (opcode &&& 0xF000) >>> 12 = 0x8 then
    if opcode &&& 0x000F = 0x0 then
      .AssignXY ((opcode &&& 0x0F00) >>> 8) ((opcode &&& 0x00F0) >>> 4)
    else if opcode &&& 0x000F = 0x1 then
      .OrXY ((opcode &&& 0x0F00) >>> 8) ((opcode &&& 0x00F0) >>> 4)
    else if opcode &&& 0x000F = 0x2 then
      .AndXY ((opcode &&& 0x0F00) >>> 8) ((opcode &&& 0x00F0) >>> 4)
    else if opcode &&& 0x000F = 0x3 then
      .XorXY ((opcode &&& 0x0F00) >>> 8) ((opcode &&& 0x00F0) >>> 4)
    else if opcode &&& 0x000F = 0x4 then
      .AddXY ((opcode &&& 0x0F00) >>> 8) ((opcode &&& 0x00F0) >>> 4)
    else if opcode &&& 0x000F = 0x5 then
      .SubXY ((opcode &&& 0x0F00) >>> 8) ((opcode &&& 0x00F0) >>> 4)
    else if opcode &&& 0x000F = 0x6 then
      .Shr1X ((opcode &&& 0x0F00) >>> 8)
    else if opcode &&& 0x000F = 0x7 then
      .SubYX ((opcode &&& 0x0F00) >>> 8) ((opcode &&& 0x00F0) >>> 4)
    else if opcode &&& 0x000F = 0xE then
      .Shl1X ((opcode &&& 0x0F00) >>> 8)
    else .Unsupported opcode
  else if (opcode &&& 0xF000) >>> 12 = 0x9 then
    if opcode &&& 0x000F = 0 then
      .SkipIfNeXY ((opcode &&& 0x0F00) >>> 8) ((opcode &&& 0x00F0) >>> 4)
    else .Unsupported opcode
  else if (opcode &&& 0xF000) >>> 12 = 0xA then .SetI (opcode &&& 0x0FFF)
  else if (opcode &&& 0xF000) >>> 12 = 0xB then .JumpV0 (opcode &&& 0x0FFF)
  else if (opcode &&& 0xF000) >>> 12 = 0xC then
    .RandX ((opcode &&& 0x0F00) >>> 8) (opcode &&& 0x00FF)
  else if (opcode &&& 0xF000) >>> 12 = 0xD then
    .DispDraw ((opcode &&& 0x0F00) >>> 8) ((opcode &&& 0x00F0) >>> 4) (opcode &&& 0x000F)
  else if (opcode &&& 0xF000) >>> 12 = 0xE then
    if opcode &&& 0x00FF = 0x9E then .SkipIfKeyEqX ((opcode &&& 0x0F00) >>> 8)
    else if opcode &&& 0x00FF = 0xA1 then .SkipIfKeyNeX ((opcode &&& 0x0F00) >>> 8)
    else .Unsupported opcode
  else if (opcode &&& 0xF000) >>> 12 = 0xF then
    if opcode &&& 0x00FF = 0x07 then .GetDelayX ((opcode &&& 0x0F00) >>> 8)
    else if opcode &&& 0x00FF = 0x0A then .AwaitKeyX ((opcode &&& 0x0F00) >>> 8)
    else if opcode &&& 0x00FF = 0x15 then .SetDelayX ((opcode &&& 0x0F00) >>> 8)
    else if opcode &&& 0x00FF = 0x18 then .SetSoundX ((opcode &&& 0x0F00) >>> 8)
    else if opcode &&& 0x00FF = 0x1E then .AddIX ((opcode &&& 0x0F00) >>> 8)
    else if opcode &&& 0x00FF = 0x29 then .SpriteAddrIX ((opcode &&& 0x0F00) >>> 8)
    else if opcode &&& 0x00FF = 0x33 then .DumpBcdIX ((opcode &&& 0x0F00) >>> 8)
    else if opcode &&& 0x00FF = 0x55 then .RegDumpIX ((opcode &&& 0x0F00) >>> 8)
    else if opcode &&& 0x00FF = 0x65 then .RegLoadIX ((opcode &&& 0x0F00) >>> 8)
    else if opcode &&& 0x00FF = 0x17 then .NoOp opcode
    else if opcode = 0xF000 then .Halt
    else .Unsupported opcode
  else .Unsupported opcode

/-- The register-array indices (`RegId` operands) carried by a decoded
instruction — exactly the indices `Cpu::execute` uses to subscript the
16-entry register file. -/
def Instruction.regOperands : Instruction → List Nat
  | .AssignXImm x _ => [x]
  | .AddXImm x _ => [x]
  | .AssignXY x y => [x, y]
  | .OrXY x y => [x, y]
  | .AndXY x y => [x, y]
  | .XorXY x y => [x, y]
  | .AddXY x y => [x, y]
  | .SubXY x y => [x, y]
  | .Shr1X x => [x]
  | .SubYX x y => [x, y]
  | .Shl1X x => [x]
  | .DispClear => []
  | .DispDraw x y _ => [x, y]
  | .SkipIfEqX x _ => [x]
  | .SkipIfNeX x _ => [x]
  | .SkipIfEqXY x y => [x, y]
  | .SkipIfNeXY x y => [x, y]
  | .Jump _ => []
  | .JumpV0 _ => []
  | .Call _ => []
  | .Ret => []
  | .NoOp _ => []
  | .SkipIfKeyEqX x => [x]
  | .SkipIfKeyNeX x => [x]
  | .GetDelayX x => [x]
  | .AwaitKeyX x => [x]
  | .SetDelayX x => [x]
  | .SetSoundX x => [x]
  | .SetI _ => []
  | .AddIX x => [x]
  | .SpriteAddrIX x => [x]
  | .DumpBcdIX x => [x]
  | .RegDumpIX x => [x]
  | .RegLoadIX x => [x]
  | .RandX x _ => [x]
  | .Halt => []
  | .Unsupported _ => []

/-- `COND_REG` from `src/cpu.rs`: the flag register index. -/
def COND_REG : Nat := 0xF

/-- Capacity of the call stack array (`[MemAddr; 16]`). -/
def stackLen : Nat := 16

/-- `KeyBoard` from `src/keyboard.rs` (keys are `u8` values). -/
structure KeyBoard where
  pressed : Option Nat

/-- `KeyBoard::get_key_pressed`: `self.pressed.unwrap_or(0)`. -/
def KeyBoard.get_key_pressed (k : KeyBoard) : Nat :=
  k.pressed.getD 0

/-- `KeyBoard::new`: the pressed key starts as `Some(b'q')` (byte 113). -/
def KeyBoard.new : KeyBoard := ⟨some 113⟩

/-- `usize::checked_add`: `none` when the mathematical sum does not fit
in 64 bits. -/
def usizeCheckedAdd (a b : Nat) : Option Nat :=
  if a + b < 2 ^ 64 then some (a + b) else none

/-- `mem_addr_add` from `src/cpu.rs`: checked address addition, address
overflow being a fatal error. -/
def mem_addr_add (base offset : Nat) : RResult CpuError Nat :=
  match usizeCheckedAdd base offset with
  | some r => .ok r
  | none => .error .memoryAddressOverflow

/-- `Cpu` from `src/cpu.rs`.  The 16-entry register file and 16-entry
stack are modelled as contents functions (only indices `< 16` are
meaningful). -/
structure Cpu where
  registers : Nat → Nat
  pc : Nat
  sp : Nat
  index : Nat
  stack : Nat → Nat

/-- `Cpu::new`: all state zeroed. -/
def Cpu.new : Cpu :=
  { registers := fun _ => 0, pc := 0, sp := 0, index := 0, stack := fun _ => 0 }

/-- A register write `self.registers[i] = v`. -/
def Cpu.setReg (c : Cpu) (i v : Nat) : Cpu :=
  { c with registers := updFn c.registers i v }

/-- `Cpu::set_condition`: write the flag register. -/
def Cpu.set_condition (c : Cpu) (condition : Nat) : Cpu :=
  c.setReg COND_REG condition

/-- `Cpu::push_stack`: the source first rejects `sp > self.stack.len()`
with `StackOverflow`, then executes `self.stack[self.sp] = addr` — an
array write that panics when `sp` equals the array length 16. -/
def Cpu.push_stack (c : Cpu) (addr : Nat) : RResult CpuError Cpu :=
  if c.sp > stackLen then .error .stackOverflow
  else if c.sp < stackLen then
    .ok { c with stack := updFn c.stack c.sp addr, sp := c.sp + 1 }
  else .panicked

/-- `Cpu::pop_stack`. -/
def Cpu.pop_stack (c : Cpu) : RResult CpuError (Nat × Cpu) :=
  if c.sp ≤ 0 then .error .stackUnderflow
  else .ok (c.stack (c.sp - 1), { c with sp := c.sp - 1 })

/-- `Cpu::jump`: `pc <- addr`. -/
def Cpu.jump (c : Cpu) (addr : Nat) : RResult CpuError Cpu :=
  .ok { c with pc := addr }

/-- `Cpu::call`: push the current (already advanced) `pc`, then jump. -/
def Cpu.call (c : Cpu) (addr : Nat) : RResult CpuError Cpu :=
  match c.push_stack c.pc with
  | .ok c1 => c1.jump addr
  | .error e => .error e
  | .panicked => .panicked

/-- `Cpu::inc_pc`: `pc <- pc + 2` via checked address addition. -/
def Cpu.inc_pc (c : Cpu) : RResult CpuError Cpu :=
  match mem_addr_add c.pc 2 with
  | .ok p => .ok { c with pc := p }
  | .error e => .error e
  | .panicked => .panicked

/-- `Cpu::skip_instruction`: advance `pc` by another 2. -/
def Cpu.skip_instruction (c : Cpu) : RResult CpuError Cpu :=
  c.inc_pc

/-- `Cpu::fetch`: load the big-endian word at `pc` (wrapping the memory
error into `CpuError::MemoryError`), then advance `pc` by 2. -/
def Cpu.fetch (c : Cpu) (mem : Memory) : RResult CpuError (Nat × Cpu) :=
  match mem.load_u16 c.pc with
  | .error e => .error (.memoryError e)
  | .panicked => .panicked
  | .ok opcode =>
    match c.inc_pc with
    | .ok c1 => .ok (opcode, c1)
    | .error e => .error e
    | .panicked => .panicked

/-- `Cpu::skip_if_eq_x`. -/
def Cpu.skip_if_eq_x (c : Cpu) (x imm : Nat) : RResult CpuError Cpu :=
  if c.registers x = imm then c.skip_instruction else .ok c

/-- `Cpu::skip_if_ne_x`. -/
def Cpu.skip_if_ne_x (c : Cpu) (x imm : Nat) : RResult CpuError Cpu :=
  if c.registers x ≠ imm then c.skip_instruction else .ok c

/-- `Cpu::skip_if_eq_xy`. -/
def Cpu.skip_if_eq_xy (c : Cpu) (x y : Nat) : RResult CpuError Cpu :=
  if c.registers x = c.registers y then c.skip_instruction else .ok c

/-- `Cpu::skip_if_ne_xy`. -/
def Cpu.skip_if_ne_xy (c : Cpu) (x y : Nat) : RResult CpuError Cpu :=
  if c.registers x ≠ c.registers y then c.skip_instruction else .ok c

/-- `Cpu::skip_if_key_eq_x`. -/
def Cpu.skip_if_key_eq_x (c : Cpu) (x : Nat) (keyboard : KeyBoard) : RResult CpuError Cpu :=
  if c.registers x = keyboard.get_key_pressed then c.skip_instruction else .ok c

/-- `Cpu::skip_if_key_ne_x`. -/
def Cpu.skip_if_key_ne_x (c : Cpu) (x : Nat) (keyboard : KeyBoard) : RResult CpuError Cpu :=
  if c.registers x ≠ keyboard.get_key_pressed then c.skip_instruction else .ok c

/-- `Cpu::sub_xy`: `u8::overflowing_sub` on register values (`u8`
wraparound difference, borrow flag `xv < yv`), then the inverted-borrow
flag write. -/
def Cpu.sub_xy (c : Cpu) (x y : Nat) : RResult CpuError Cpu :=
  let xv := c.registers x
  let yv := c.registers y
  let res := (xv + 256 - yv) % 256
  .ok ((c.setReg x res).set_condition (if xv < yv then 0 else 1))

/-- `Cpu::sub_yx`: as `sub_xy` with the operands of the subtraction
reversed (`yv - xv`), the result still written to register `x`. -/
def Cpu.sub_yx (c : Cpu) (x y : Nat) : RResult CpuError Cpu :=
  let xv := c.registers x
  let yv := c.registers y
  let res := (yv + 256 - xv) % 256
  .ok ((c.setReg x res).set_condition (if yv < xv then 0 else 1))

/-- `char_to_bcd` from `src/cpu.rs`: a decimal digit character to its
numeric value (the `unreachable!` arm on non-digits modelled as 0). -/
def char_to_bcd (c : Char) : Nat :=
  if '0' ≤ c ∧ c ≤ '9' then c.toNat - 48 else 0

/-- The Rust formatting `format` with the 03 width spec applied to a
value: the decimal digit characters, left-padded with '0' to width 3. -/
def formatDec3 (v : Nat) : List Char :=
  let s := Nat.toDigits 10 v
  List.replicate (3 - s.length) '0' ++ s

/-- The loop body of `Cpu::dump_bcd_i_x`: store successive digit bytes
at `base + offset` via `mem_addr_add` and `Memory::store_byte`,
propagating errors. -/
def storeBytesFrom (base : Nat) : Nat → List Nat → Memory → RResult CpuError Memory
  | _, [], mem => .ok mem
  | offset, d :: ds, mem =>
    match mem_addr_add base offset with
    | .error e => .error e
    | .panicked => .panicked
    | .ok addr =>
      match mem.store_byte addr d with
      | .error e => .error (.memoryError e)
      | .panicked => .panicked
      | .ok m1 => storeBytesFrom base (offset + 1) ds m1

/-- `Cpu::dump_bcd_i_x`: format the register value as three decimal
digit characters, convert each with `char_to_bcd`, and store the digit
bytes at `index`, `index + 1`, `index + 2`. -/
def Cpu.dump_bcd_i_x (c : Cpu) (x : Nat) (mem : Memory) : RResult CpuError Memory :=
  storeBytesFrom c.index 0 ((formatDec3 (c.registers x)).map char_to_bcd) mem

/-- The program counter of an `ok` outcome. -/
def pcOf (r : RResult CpuError Cpu) : Option Nat :=
  match r with
  | .ok c => some c.pc
  | _ => none

/-- The value of register `i` in an `ok` outcome. -/
def regOf (r : RResult CpuError Cpu) (i : Nat) : Option Nat :=
  match r with
  | .ok c => some (c.registers i)
  | _ => none

/-! ### Concrete fixtures used by the claim theorems -/

/-- Memory holding the one-byte sprite `0x80` (single leftmost pixel) at
address 0. -/
def memSprite : Memory := ⟨fun a => if a = 0 then 0x80 else 0⟩

/-- Pixel `(0, 0)` of the framebuffer and the collision flag of a draw
outcome. -/
def drawProj (r : RResult MemoryError (Display × Bool)) : Option (Nat × Bool) :=
  match r with
  | .ok (d, ch) => some (d.grid 0 0, ch)
  | _ => none

/-- One draw of the sprite `0x80` at `(0, 0)` on an empty framebuffer. -/
def drawOnce : RResult MemoryError (Display × Bool) :=
  Display.new.draw 0 0 1 0 memSprite

/-- The same draw performed a second time on the resulting framebuffer. -/
def drawTwice : RResult MemoryError (Display × Bool) :=
  match drawOnce with
  | .ok (d1, _) => d1.draw 0 0 1 0 memSprite
  | r => r

/-- A framebuffer whose only set pixel is `(0, 0)`. -/
def fbOne : Display := ⟨fun r c => if r = 0 ∧ c = 0 then 1 else 0⟩

/-- `n` consecutive `call 0x200` instructions starting from the freshly
constructed processor (empty call stack), propagating failures. -/
def callIter : Nat → RResult CpuError Cpu
  | 0 => .ok Cpu.new
  | n + 1 =>
    match callIter n with
    | .ok c => c.call 0x200
    | .error e => .error e
    | .panicked => .panicked

/-- A processor whose stack pointer has reached the nominal capacity 16
(the state after 16 successful calls). -/
def cpuSp16 : Cpu := { Cpu.new with sp := 16 }

/-- A processor with register 1 holding 100 and register 2 holding 205
(a borrow case for the subtract instructions). -/
def cpuSub : Cpu :=
  { Cpu.new with registers := fun i => if i = 1 then 100 else if i = 2 then 205 else 0 }

/-- A processor with register 3 holding 205 and the index register at
`0x300` (the spec's decimal-dump example). -/
def cpuBcd : Cpu :=
  { Cpu.new with registers := fun i => if i = 3 then 205 else 0, index := 0x300 }

/-! ### Claim theorems -/

/-- C1: the claim says drawing the same nonzero sprite twice at the same
coordinates restores the framebuffer (XOR self-inverse) and the second
draw reports a collision where the first set a pixel.  The code instead
*assigns* each sprite pixel to the grid: after drawing sprite `0x80` at
`(0, 0)` on an empty framebuffer twice, pixel `(0, 0)` is still 1 (not
restored to 0) and the second draw reports no collision. -/
theorem c1_double_draw_not_xor :
    drawProj drawOnce = some (1, true) ∧ drawProj drawTwice = some (1, false) :=
  ⟨rfl, rfl⟩

/-- C2: the claim says drawing an all-zero sprite never reports a
collision and never changes a pixel.  The code assigns the zero sprite
bits to the grid, so on a framebuffer whose pixel `(0, 0)` is set, a
zero sprite of height 1 drawn at `(0, 0)` clears that pixel and reports
a collision. -/
theorem c2_zero_sprite_clears_pixel :
    drawProj (fbOne.draw 0 0 1 0 Memory.new) = some (0, true) :=
  rfl

/-- C3: the claim says that from an empty call stack 16 calls succeed
and the 17th fails with the `StackOverflow` error.  In the code the
first 16 calls do succeed, but the 17th passes the `sp > 16` overflow
check with `sp = 16` and then panics on the out-of-bounds array write
`stack[16]` instead of returning the error. -/
theorem c3_seventeenth_call_panics :
    (∀ n : Fin 17, (callIter n.val).isOk = true) ∧ callIter 17 = .panicked :=
  ⟨by decide, rfl⟩

/-- C4: the claim says `load_u16` is fully bounds-checked and in
particular errors at address 4095.  The code only checks
`addr >= 4096`: at 4094 it returns the big-endian word, at 4096 it
returns the out-of-bounds error, but at 4095 it passes the check and
panics indexing byte 4096 of the 4096-byte array. -/
theorem c4_load_u16_boundary :
    Memory.new.load_u16 4094 = .ok 0 ∧
    Memory.new.load_u16 4095 = .panicked ∧
    Memory.new.load_u16 4096 = .error .outOfBounds :=
  ⟨rfl, rfl, rfl⟩

/-- C6 counterexample: the claim says a push with `sp = 16` succeeds in
writing one slot past the nominal capacity.  It does not: it panics on
the array write, so the outcome is not `ok`. -/
theorem c6_push_at_sp16_panics :
    cpuSp16.push_stack 0 = .panicked ∧ (cpuSp16.push_stack 0).isOk = false :=
  ⟨rfl, rfl⟩

/-- C6 (amended): the overflow check does compare with `>` rather than
`>=`, so `StackOverflow` is only signalled for `sp > 16`; but a push
with `sp = 16` panics on the out-of-bounds array write rather than
succeeding, so only 16 call levels are usable. -/
theorem c6_push_stack_trichotomy (c : Cpu) (a : Nat) :
    (stackLen < c.sp → c.push_stack a = .error .stackOverflow) ∧
    (c.sp = stackLen → c.push_stack a = .panicked) ∧
    (c.sp < stackLen → ∃ c1, c.push_stack a = .ok c1 ∧ c1.sp = c.sp + 1 ∧
      c1.stack c.sp = a ∧ c1.pc = c.pc) := by
  refine ⟨fun h => ?_, fun h => ?_, fun h => ?_⟩
  · unfold Cpu.push_stack
    rw [if_pos h]
  · unfold Cpu.push_stack
    rw [if_neg (by omega), if_neg (by omega)]
  · refine ⟨{ c with stack := updFn c.stack c.sp a, sp := c.sp + 1 }, ?_, rfl, ?_, rfl⟩
    · unfold Cpu.push_stack
      rw [if_neg (by omega), if_pos h]
    · simp [updFn]

/-- C6 witness: a push on the freshly constructed processor (`sp = 0`)
succeeds and records the address. -/
theorem c6_push_stack_trichotomy_witness :
    ∃ c1, Cpu.new.push_stack 7 = .ok c1 ∧ c1.sp = Cpu.new.sp + 1 ∧
      c1.stack Cpu.new.sp = 7 ∧ c1.pc = Cpu.new.pc :=
  (c6_push_stack_trichotomy Cpu.new 7).2.2 (by decide)

/-- The top nibble of an opcode below `0x1000` is zero. -/
lemma op_cls_zero_of_lt {op : Nat} (h : op < 0x1000) : (op &&& 0xF000) >>> 12 = 0 := by
  have h1 : op &&& 0xF000 ≤ op := Nat.and_le_left
  have h2 : (2 : Nat) ^ 12 = 4096 := by norm_num
  rw [Nat.shiftRight_eq_div_pow, h2]
  omega

/-- C5: decoding is a total pure function, every opcode mapping to
exactly one `Instruction`; the legacy patterns — class-0 opcodes other
than the three special ones, and class-F opcodes with low byte `0x17` —
map to the explicit `NoOp` variant (unrecognized patterns map to
`Unsupported` by the decoder's fall-through arms). -/
theorem c5_decode_total (op : Nat) (_hop : op < 65536) :
    (∃! i, Instruction.decode op = i) ∧
    (op < 0x1000 → op ≠ 0x0000 → op ≠ 0x00E0 → op ≠ 0x00EE →
      Instruction.decode op = .NoOp op) ∧
    (op &&& 0xF000 = 0xF000 → op &&& 0x00FF = 0x17 →
      Instruction.decode op = .NoOp op) := by
  refine ⟨⟨Instruction.decode op, rfl, fun y hy => hy.symm⟩, ?_, ?_⟩
  · intro h1 h2 h3 h4
    have hcls := op_cls_zero_of_lt h1
    simp [Instruction.decode, hcls, h2, h3, h4]
  · intro hF hL
    have hcls : (op &&& 0xF000) >>> 12 = 0xF := by rw [hF]; rfl
    simp [Instruction.decode, hcls, hL]

/-- C5 witness: opcode `0x0123` is a legacy system call, decoded as
`NoOp`. -/
theorem c5_decode_total_witness :
    (∃! i, Instruction.decode 0x0123 = i) ∧
    (0x0123 < 0x1000 → 0x0123 ≠ 0x0000 → 0x0123 ≠ 0x00E0 → 0x0123 ≠ 0x00EE →
      Instruction.decode 0x0123 = .NoOp 0x0123) ∧
    (0x0123 &&& 0xF000 = 0xF000 → 0x0123 &&& 0x00FF = 0x17 →
      Instruction.decode 0x0123 = .NoOp 0x0123) :=
  c5_decode_total 0x0123 (by norm_num)

/-- Both nibble extractions used for register operands are below 16. -/
lemma nibble_x_lt (op : Nat) : (op &&& 0x0F00) >>> 8 < 16 := by
  have h1 : op &&& 0x0F00 ≤ 0x0F00 := Nat.and_le_right
  have h2 : (2 : Nat) ^ 8 = 256 := by norm_num
  rw [Nat.shiftRight_eq_div_pow, h2]
  omega

/-- The second register-operand nibble is below 16. -/
lemma nibble_y_lt (op : Nat) : (op &&& 0x00F0) >>> 4 < 16 := by
  have h1 : op &&& 0x00F0 ≤ 0x00F0 := Nat.and_le_right
  have h2 : (2 : Nat) ^ 4 = 16 := by norm_num
  rw [Nat.shiftRight_eq_div_pow, h2]
  omega

set_option maxHeartbeats 1000000 in
/-- Every register operand produced by the decoder is one of the two
nibble extractions. -/
lemma decode_operands_are_nibbles (op : Nat) :
    ∀ r ∈ (Instruction.decode op).regOperands,
      r = (op &&& 0x0F00) >>> 8 ∨ r = (op &&& 0x00F0) >>> 4 := by
  unfold Instruction.decode
  generalize (op &&& 0x0F00) >>> 8 = a
  generalize (op &&& 0x00F0) >>> 4 = b
  generalize op &&& 0x000F = n1
  generalize op &&& 0x00FF = n2
  have hk : (op &&& 0xF000) >>> 12 < 16 := by
    have h1 : op &&& 0xF000 ≤ 0xF000 := Nat.and_le_right
    have h2 : (2 : Nat) ^ 12 = 4096 := by norm_num
    rw [Nat.shiftRight_eq_div_pow, h2]
    omega
  generalize hgen : (op &&& 0xF000) >>> 12 = k at hk ⊢
  clear hgen
  interval_cases k <;> norm_num <;> (try split_ifs) <;> intro r hr <;>
    simp only [Instruction.regOperands, List.mem_cons, List.not_mem_nil, or_false,
      List.mem_singleton] at hr <;> tauto

/-- C10: every register-operand index carried by a decoded instruction
is a nibble extracted from bits 8–11 or 4–7, hence strictly below 16,
so every register-array subscript performed by `Cpu::execute` (together
with the flag register `COND_REG`) stays inside the 16-entry register
file. -/
theorem c10_decode_reg_operands_lt (op : Nat) (_hop : op < 65536) :
    (∀ r ∈ (Instruction.decode op).regOperands, r < 16) ∧ COND_REG < 16 := by
  refine ⟨?_, by norm_num [COND_REG]⟩
  have hx := nibble_x_lt op
  have hy := nibble_y_lt op
  intro r hr
  rcases decode_operands_are_nibbles op r hr with h | h <;> omega

/-- C10 witness: opcode `0x8125` decodes to `SubXY 1 2`, whose operand
indices are below 16. -/
theorem c10_decode_reg_operands_lt_witness :
    (∀ r ∈ (Instruction.decode 0x8125).regOperands, r < 16) ∧ COND_REG < 16 :=
  c10_decode_reg_operands_lt 0x8125 (by norm_num)


/-- `Cpu::skip_instruction` advances the program counter by exactly 2
when the checked addition does not overflow. -/
lemma skip_instruction_pc (c : Cpu) (h : c.pc + 2 < 2 ^ 64) :
    c.skip_instruction = .ok { c with pc := c.pc + 2 } := by
  unfold Cpu.skip_instruction Cpu.inc_pc mem_addr_add usizeCheckedAdd
  rw [if_pos h]

/-- `Cpu::fetch` returns the big-endian word at `pc` and advances `pc`
by 2 when both bytes are in bounds. -/
lemma fetch_ok (c : Cpu) (mem : Memory) (h1 : c.pc + 1 < memLen) (h2 : c.pc + 2 < 2 ^ 64) :
    c.fetch mem = .ok (mem.bytes c.pc <<< 8 ||| mem.bytes (c.pc + 1), { c with pc := c.pc + 2 }) := by
  have hm : memLen = 4096 := rfl
  unfold Cpu.fetch Memory.load_u16 Cpu.inc_pc mem_addr_add usizeCheckedAdd
  rw [if_neg (by omega), if_pos h1, if_pos h2]

/-- `skip_if_eq_x` adds 2 to `pc` exactly when the condition holds. -/
lemma skip_if_eq_x_pc (d : Cpu) (x imm : Nat) (h : d.pc + 2 < 2 ^ 64) :
    pcOf (d.skip_if_eq_x x imm)
      = some (if d.registers x = imm then d.pc + 2 else d.pc) := by
  unfold Cpu.skip_if_eq_x
  split_ifs with hc
  · rw [skip_instruction_pc _ h]
    rfl
  · rfl

/-- `skip_if_ne_x` adds 2 to `pc` exactly when the condition holds. -/
lemma skip_if_ne_x_pc (d : Cpu) (x imm : Nat) (h : d.pc + 2 < 2 ^ 64) :
    pcOf (d.skip_if_ne_x x imm)
      = some (if d.registers x ≠ imm then d.pc + 2 else d.pc) := by
  unfold Cpu.skip_if_ne_x
  split_ifs with hc
  · rw [skip_instruction_pc _ h]
    rfl
  · rfl

/-- `skip_if_eq_xy` adds 2 to `pc` exactly when the condition holds. -/
lemma skip_if_eq_xy_pc (d : Cpu) (x y : Nat) (h : d.pc + 2 < 2 ^ 64) :
    pcOf (d.skip_if_eq_xy x y)
      = some (if d.registers x = d.registers y then d.pc + 2 else d.pc) := by
  unfold Cpu.skip_if_eq_xy
  split_ifs with hc
  · rw [skip_instruction_pc _ h]
    rfl
  · rfl

/-- `skip_if_ne_xy` adds 2 to `pc` exactly when the condition holds. -/
lemma skip_if_ne_xy_pc (d : Cpu) (x y : Nat) (h : d.pc + 2 < 2 ^ 64) :
    pcOf (d.skip_if_ne_xy x y)
      = some (if d.registers x ≠ d.registers y then d.pc + 2 else d.pc) := by
  unfold Cpu.skip_if_ne_xy
  split_ifs with hc
  · rw [skip_instruction_pc _ h]
    rfl
  · rfl

/-- `skip_if_key_eq_x` adds 2 to `pc` exactly when the condition holds. -/
lemma skip_if_key_eq_x_pc (d : Cpu) (x : Nat) (kb : KeyBoard) (h : d.pc + 2 < 2 ^ 64) :
    pcOf (d.skip_if_key_eq_x x kb)
      = some (if d.registers x = kb.get_key_pressed then d.pc + 2 else d.pc) := by
  unfold Cpu.skip_if_key_eq_x
  split_ifs with hc
  · rw [skip_instruction_pc _ h]
    rfl
  · rfl

/-- `skip_if_key_ne_x` adds 2 to `pc` exactly when the condition holds. -/
lemma skip_if_key_ne_x_pc (d : Cpu) (x : Nat) (kb : KeyBoard) (h : d.pc + 2 < 2 ^ 64) :
    pcOf (d.skip_if_key_ne_x x kb)
      = some (if d.registers x ≠ kb.get_key_pressed then d.pc + 2 else d.pc) := by
  unfold Cpu.skip_if_key_ne_x
  split_ifs with hc
  · rw [skip_instruction_pc _ h]
    rfl
  · rfl

/-- C7: for every skip instruction, relative to the program counter at
fetch time, the program counter after the instruction is `pc + 4` when
the skip condition holds and `pc + 2` when it does not (fetch itself
contributing the unconditional `+ 2`), assuming the fetch is in bounds
and no address overflow occurs. -/
theorem c7_skip_pc_delta (mem : Memory) (c : Cpu) (kb : KeyBoard) (x y imm : Nat)
    (h1 : c.pc + 1 < memLen) (h2 : c.pc + 4 < 2 ^ 64) :
    c.fetch mem = .ok (mem.bytes c.pc <<< 8 ||| mem.bytes (c.pc + 1), { c with pc := c.pc + 2 }) ∧
    pcOf (Cpu.skip_if_eq_x { c with pc := c.pc + 2 } x imm)
      = some (if c.registers x = imm then c.pc + 4 else c.pc + 2) ∧
    pcOf (Cpu.skip_if_ne_x { c with pc := c.pc + 2 } x imm)
      = some (if c.registers x ≠ imm then c.pc + 4 else c.pc + 2) ∧
    pcOf (Cpu.skip_if_eq_xy { c with pc := c.pc + 2 } x y)
      = some (if c.registers x = c.registers y then c.pc + 4 else c.pc + 2) ∧
    pcOf (Cpu.skip_if_ne_xy { c with pc := c.pc + 2 } x y)
      = some (if c.registers x ≠ c.registers y then c.pc + 4 else c.pc + 2) ∧
    pcOf (Cpu.skip_if_key_eq_x { c with pc := c.pc + 2 } x kb)
      = some (if c.registers x = kb.get_key_pressed then c.pc + 4 else c.pc + 2) ∧
    pcOf (Cpu.skip_if_key_ne_x { c with pc := c.pc + 2 } x kb)
      = some (if c.registers x ≠ kb.get_key_pressed then c.pc + 4 else c.pc + 2) := by
  have h64 : (2 : Nat) ^ 64 = 18446744073709551616 := by norm_num
  have hstep : c.pc + 2 + 2 < 2 ^ 64 := by omega
  refine ⟨fetch_ok c mem h1 (by omega), ?_, ?_, ?_, ?_, ?_, ?_⟩
  · rw [skip_if_eq_x_pc _ _ _ hstep]
  · rw [skip_if_ne_x_pc _ _ _ hstep]
  · rw [skip_if_eq_xy_pc _ _ _ hstep]
  · rw [skip_if_ne_xy_pc _ _ _ hstep]
  · rw [skip_if_key_eq_x_pc _ _ _ hstep]
  · rw [skip_if_key_ne_x_pc _ _ _ hstep]

/-- C7 witness: the freshly constructed machine at `pc = 0` with
`x = y = imm = 0`. -/
theorem c7_skip_pc_delta_witness :
    Cpu.new.fetch Memory.new
      = .ok (Memory.new.bytes Cpu.new.pc <<< 8 ||| Memory.new.bytes (Cpu.new.pc + 1),
        { Cpu.new with pc := Cpu.new.pc + 2 }) ∧
    pcOf (Cpu.skip_if_eq_x { Cpu.new with pc := Cpu.new.pc + 2 } 0 0)
      = some (if Cpu.new.registers 0 = 0 then Cpu.new.pc + 4 else Cpu.new.pc + 2) ∧
    pcOf (Cpu.skip_if_ne_x { Cpu.new with pc := Cpu.new.pc + 2 } 0 0)
      = some (if Cpu.new.registers 0 ≠ 0 then Cpu.new.pc + 4 else Cpu.new.pc + 2) ∧
    pcOf (Cpu.skip_if_eq_xy { Cpu.new with pc := Cpu.new.pc + 2 } 0 0)
      = some (if Cpu.new.registers 0 = Cpu.new.registers 0 then Cpu.new.pc + 4
        else Cpu.new.pc + 2) ∧
    pcOf (Cpu.skip_if_ne_xy { Cpu.new with pc := Cpu.new.pc + 2 } 0 0)
      = some (if Cpu.new.registers 0 ≠ Cpu.new.registers 0 then Cpu.new.pc + 4
        else Cpu.new.pc + 2) ∧
    pcOf (Cpu.skip_if_key_eq_x { Cpu.new with pc := Cpu.new.pc + 2 } 0 KeyBoard.new)
      = some (if Cpu.new.registers 0 = KeyBoard.new.get_key_pressed then Cpu.new.pc + 4
        else Cpu.new.pc + 2) ∧
    pcOf (Cpu.skip_if_key_ne_x { Cpu.new with pc := Cpu.new.pc + 2 } 0 KeyBoard.new)
      = some (if Cpu.new.registers 0 ≠ KeyBoard.new.get_key_pressed then Cpu.new.pc + 4
        else Cpu.new.pc + 2) :=
  c7_skip_pc_delta Memory.new Cpu.new KeyBoard.new 0 0 0 (by decide) (by decide)

/-- C8: both subtract instructions compute the unsigned 8-bit
wraparound difference into register `x` (when `x` is not the flag
register, which the flag write would overwrite) and set the flag
register `VF` to 1 exactly when no borrow occurred, 0 when a borrow
occurred. -/
theorem c8_sub_flag_semantics (c : Cpu) (x y : Nat)
    (_hx : c.registers x < 256) (_hy : c.registers y < 256) :
    regOf (c.sub_xy x y) COND_REG
      = some (if c.registers x < c.registers y then 0 else 1) ∧
    (x ≠ COND_REG → regOf (c.sub_xy x y) x
      = some ((c.registers x + 256 - c.registers y) % 256)) ∧
    regOf (c.sub_yx x y) COND_REG
      = some (if c.registers y < c.registers x then 0 else 1) ∧
    (x ≠ COND_REG → regOf (c.sub_yx x y) x
      = some ((c.registers y + 256 - c.registers x) % 256)) := by
  refine ⟨?_, fun hne => ?_, ?_, fun hne => ?_⟩
  · simp [Cpu.sub_xy, Cpu.set_condition, Cpu.setReg, regOf, updFn, COND_REG]
  · simp only [COND_REG] at hne
    simp [Cpu.sub_xy, Cpu.set_condition, Cpu.setReg, regOf, updFn, COND_REG, hne]
  · simp [Cpu.sub_yx, Cpu.set_condition, Cpu.setReg, regOf, updFn, COND_REG]
  · simp only [COND_REG] at hne
    simp [Cpu.sub_yx, Cpu.set_condition, Cpu.setReg, regOf, updFn, COND_REG, hne]

/-- C8 witness: registers `V1 = 100`, `V2 = 205`: `sub` borrows
(flag 0, result 151) and reversed `sub` does not (flag 1, result 105). -/
theorem c8_sub_flag_semantics_witness :
    regOf (cpuSub.sub_xy 1 2) COND_REG
      = some (if cpuSub.registers 1 < cpuSub.registers 2 then 0 else 1) ∧
    ((1 : Nat) ≠ COND_REG → regOf (cpuSub.sub_xy 1 2) 1
      = some ((cpuSub.registers 1 + 256 - cpuSub.registers 2) % 256)) ∧
    regOf (cpuSub.sub_yx 1 2) COND_REG
      = some (if cpuSub.registers 2 < cpuSub.registers 1 then 0 else 1) ∧
    ((1 : Nat) ≠ COND_REG → regOf (cpuSub.sub_yx 1 2) 1
      = some ((cpuSub.registers 2 + 256 - cpuSub.registers 1) % 256)) :=
  c8_sub_flag_semantics cpuSub 1 2 (by decide) (by decide)

/-- `mem_addr_add` succeeds below the `usize` bound. -/
lemma mem_addr_add_ok (b o : Nat) (h : b + o < 2 ^ 64) : mem_addr_add b o = .ok (b + o) := by
  unfold mem_addr_add usizeCheckedAdd
  rw [if_pos h]

/-- `Memory::store_byte` succeeds below the capacity and performs the
pointwise update. -/
lemma store_byte_ok (m : Memory) (a v : Nat) (h : a < memLen) :
    m.store_byte a v = .ok ⟨updFn m.bytes a v⟩ := by
  unfold Memory.store_byte
  rw [if_neg (by omega)]

set_option maxRecDepth 4000 in
/-- For every byte value, the zero-padded 3-wide decimal formatting
composed with `char_to_bcd` yields the three decimal digits, most
significant first. -/
lemma formatDec3_digits : ∀ v : Fin 256,
    (formatDec3 v.val).map char_to_bcd = [v.val / 100, v.val / 10 % 10, v.val % 10] := by
  decide

/-- C9: with the index register `A` such that `A + 2` is in bounds, the
decimal-digit dump of a register value `v < 256` writes exactly the
three decimal digit values of `v`, most significant first, to
`A`, `A + 1`, `A + 2` (each a numeric digit below 10), and leaves every
other memory byte unchanged. -/
theorem c9_dump_bcd_digits (c : Cpu) (mem : Memory) (x : Nat)
    (hv : c.registers x < 256) (hA : c.index + 2 < memLen) :
    ∃ m1, c.dump_bcd_i_x x mem = .ok m1 ∧
      m1.bytes c.index = c.registers x / 100 ∧
      m1.bytes (c.index + 1) = c.registers x / 10 % 10 ∧
      m1.bytes (c.index + 2) = c.registers x % 10 ∧
      c.registers x / 100 < 10 ∧
      (∀ a, a ≠ c.index → a ≠ c.index + 1 → a ≠ c.index + 2 →
        m1.bytes a = mem.bytes a) := by
  have h64 : (2 : Nat) ^ 64 = 18446744073709551616 := by norm_num
  have hm : memLen = 4096 := rfl
  have hdig : (formatDec3 (c.registers x)).map char_to_bcd
      = [c.registers x / 100, c.registers x / 10 % 10, c.registers x % 10] :=
    formatDec3_digits ⟨c.registers x, hv⟩
  have e0 : mem_addr_add c.index 0 = .ok c.index := mem_addr_add_ok _ _ (by omega)
  have e1 : mem_addr_add c.index 1 = .ok (c.index + 1) := mem_addr_add_ok _ _ (by omega)
  have e2 : mem_addr_add c.index 2 = .ok (c.index + 2) := mem_addr_add_ok _ _ (by omega)
  have t0 := store_byte_ok mem c.index (c.registers x / 100) (by omega)
  have t1 := store_byte_ok ⟨updFn mem.bytes c.index (c.registers x / 100)⟩
    (c.index + 1) (c.registers x / 10 % 10) (by omega)
  have t2 := store_byte_ok
    ⟨updFn (updFn mem.bytes c.index (c.registers x / 100)) (c.index + 1)
      (c.registers x / 10 % 10)⟩
    (c.index + 2) (c.registers x % 10) (by omega)
  refine ⟨⟨updFn (updFn (updFn mem.bytes c.index (c.registers x / 100)) (c.index + 1)
      (c.registers x / 10 % 10)) (c.index + 2) (c.registers x % 10)⟩,
    ?_, ?_, ?_, ?_, by omega, ?_⟩
  · unfold Cpu.dump_bcd_i_x
    rw [hdig]
    simp [storeBytesFrom, e0, e1, e2, t0, t1, t2]
  · simp only [updFn]
    split_ifs <;> omega
  · simp only [updFn]
    split_ifs <;> omega
  · simp only [updFn]
    split_ifs <;> omega
  · intro a ha1 ha2 ha3
    simp only [updFn]
    split_ifs <;> omega

/-- C9 witness: dumping register `V3 = 205` at index `0x300` writes the
digit bytes 2, 0, 5. -/
theorem c9_dump_bcd_digits_witness :
    ∃ m1, cpuBcd.dump_bcd_i_x 3 Memory.new = .ok m1 ∧
      m1.bytes cpuBcd.index = cpuBcd.registers 3 / 100 ∧
      m1.bytes (cpuBcd.index + 1) = cpuBcd.registers 3 / 10 % 10 ∧
      m1.bytes (cpuBcd.index + 2) = cpuBcd.registers 3 % 10 ∧
      cpuBcd.registers 3 / 100 < 10 ∧
      (∀ a, a ≠ cpuBcd.index → a ≠ cpuBcd.index + 1 → a ≠ cpuBcd.index + 2 →
        m1.bytes a = Memory.new.bytes a) :=
  c9_dump_bcd_digits cpuBcd Memory.new 3 (by decide) (by decide)

end Chip8
